import Mathlib

/-!
Shallow embedding of `src/bot/misc/crypto_payment.py`: the invoice lifecycle
(create / balance-check / forward) of the multi-currency payment module.

Modelling conventions:
* Python floats for amounts and balances become `ℚ`.
* The global dict `_INVOICES` becomes an explicit `Store` value threaded
  through each operation (`String → Option Invoice`); the Python dict
  assignment `_INVOICES[id] = {...}` becomes `Store.set`, which overwrites.
* Network providers are oracles: the per-currency address creators return an
  `AddrData` record supplied as an argument; the per-currency balance
  checkers' outcome enters `check_transaction_status` as a `bal : ℚ`
  argument; the fallible provider calls of `forward_funds` (the
  pre-broadcast reads, the broadcast RPC itself, and XRP's post-broadcast
  `send_reliable_submission`) are fixed by a `SweepOracle` argument, and a
  raised provider exception propagates with the store unchanged and the
  `forwarded` mark of line 261 never reached.  The response-parsing of
  `_check_sol`, `_check_xrp` and `_rpc_call` is embedded separately over
  explicit response records.
* A Python exception becomes `Except`; `random.choices` becomes an explicit
  `suffix` argument.
-/

namespace CryptoPayment

/-- ASCII uppercase of one character, as Python's `str.upper()` acts on the
ASCII range (currency codes are ASCII). -/
def charUpper (c : Char) : Char :=
  if 'a' ≤ c ∧ c ≤ 'z' then Char.ofNat (c.toNat - 32) else c

/-- `currency.upper()` of line 108, for ASCII strings. -/
def strUpper (s : String) : String :=
  String.mk (s.data.map charUpper)

/-- One record of the `_INVOICES` dict (crypto_payment.py lines 124-131). -/
structure Invoice where
  amount : ℚ
  currency : String
  address : String
  privateKey : String
  paid : Bool
  forwarded : Bool
  deriving DecidableEq, Repr

/-- The global `_INVOICES : Dict[str, Dict]` as a map from id to record. -/
def Store : Type := String → Option Invoice

/-- Python dict assignment `_INVOICES[invoice_id] = inv`: overwrites any
existing entry under the same key. -/
def Store.set (store : Store) (invoice_id : String) (inv : Invoice) : Store :=
  fun k => if k = invoice_id then some inv else store k

/-- The empty store. -/
def Store.empty : Store := fun _ => none

/-- `_generate_id` (line 41-43): currency prefix, underscore, random suffix;
the random suffix is passed in explicitly. -/
def generate_id (currency suffix : String) : String :=
  currency ++ "_" ++ suffix

/-- Output shape of the `_create_*_address` helpers (lines 79-101):
a dict with keys `"private"` and `"address"`. -/
structure AddrData where
  privateKey : String
  address : String
  deriving DecidableEq, Repr

/-- The currencies `create_invoice` dispatches on (lines 111-120);
`supported c` iff `c` hits one of the `if/elif` branches. -/
def supported (c : String) : Bool :=
  c = "ETH" || c = "SOL" || c = "BTC" || c = "LTC" || c = "XRP"

/-- The only creation-time error raised by `create_invoice`
(line 122: `raise ValueError("Unsupported currency")`). -/
inductive CreateError where
  | UnsupportedCurrency
  deriving DecidableEq, Repr

/-- Body of `create_invoice` after the `currency = currency.upper()`
reassignment of line 108: generate the id, dispatch on the (already
uppercased) currency, store the record, return `(invoice_id, address)`.
The provider response is the `data` argument; on the `else` branch the
exception propagates before the store assignment, so the store is
returned unchanged. -/
def create_invoice_upper (store : Store) (amount : ℚ) (currency suffix : String)
    (data : AddrData) : Store × Except CreateError (String × String) :=
  let invoice_id := generate_id currency suffix
  if supported currency then
    let inv : Invoice :=
      { amount := amount, currency := currency, address := data.address,
        privateKey := data.privateKey, paid := false, forwarded := false }
    (Store.set store invoice_id inv, Except.ok (invoice_id, data.address))
  else
    (store, Except.error CreateError.UnsupportedCurrency)

/-- `create_invoice` (lines 106-132): uppercases the currency, then runs the
body.  Note there is no validation of `amount` and no duplicate-id check. -/
def create_invoice (store : Store) (amount : ℚ) (currency suffix : String)
    (data : AddrData) : Store × Except CreateError (String × String) :=
  create_invoice_upper store amount (strUpper currency) suffix data

end CryptoPayment

namespace CryptoPayment

/-- The `"result"` object of a Solana `get_balance` RPC response; the
`"value"` field may be absent (`.get("value", 0)`). -/
structure SolResult where
  value : Option Nat
  deriving DecidableEq, Repr

/-- A Solana `get_balance` response as consumed by `_check_sol` (line 146):
the `"result"` key may be absent entirely (e.g. an RPC error reply). -/
structure SolResponse where
  result : Option SolResult
  deriving DecidableEq, Repr

/-- `_check_sol` response handling (lines 143-146):
`res.get("result", {}).get("value", 0) / 10**9`. -/
def check_sol (res : SolResponse) : ℚ :=
  (((res.result.map (fun r => r.value.getD 0)).getD 0 : ℚ)) / 10 ^ 9

/-- The `"account_data"` object of an XRP `AccountInfo` response; the
`"Balance"` field may be absent (`.get("Balance", 0)`). -/
structure XrpAccountData where
  balance : Option Nat
  deriving DecidableEq, Repr

/-- An XRP `AccountInfo` response as consumed by `_check_xrp`:
`is_successful()` plus an optional `"account_data"` object. -/
structure XrpResponse where
  successful : Bool
  account_data : Option XrpAccountData
  deriving DecidableEq, Repr

/-- `_check_xrp` response handling (lines 157-164): converts drops to XRP
when the response is successful and has account data, else returns `0.0`. -/
def check_xrp (resp : XrpResponse) : ℚ :=
  match resp.successful, resp.account_data with
  | true, some ad => ((ad.balance.getD 0 : ℚ)) / 1000000
  | _, _ => 0

/-- A JSON-RPC reply as consumed by `_rpc_call` (lines 46-53): HTTP failure
flag, optional `"error"` member, and the `"result"` member (a number, for
the `getreceivedbyaddress` use in `_check_btc`/`_check_ltc`). -/
structure RpcResponse where
  httpError : Bool
  error : Option String
  result : ℚ
  deriving DecidableEq, Repr

/-- Errors `_rpc_call` raises: `resp.raise_for_status()` on HTTP failure,
`RuntimeError(data["error"])` on an error member. -/
inductive RpcError where
  | HttpError
  | RpcErrorField (e : String)
  deriving DecidableEq, Repr

/-- `_rpc_call` (lines 46-53) on an already-received reply: raise on HTTP
error, raise on an `"error"` member, otherwise return `data["result"]`. -/
def rpc_call (resp : RpcResponse) : Except RpcError ℚ :=
  if resp.httpError then Except.error RpcError.HttpError
  else
    match resp.error with
    | some e => Except.error (RpcError.RpcErrorField e)
    | none => Except.ok resp.result

/-- `_check_btc` (lines 149-150): `float(_rpc_call(...))` — any RPC error
propagates as an exception, a value is returned only from a real reply. -/
def check_btc (resp : RpcResponse) : Except RpcError ℚ :=
  rpc_call resp

/-- `_check_ltc` (lines 153-154): same shape as `_check_btc`. -/
def check_ltc (resp : RpcResponse) : Except RpcError ℚ :=
  rpc_call resp

/-- Result of `check_transaction_status`: the (possibly updated) store, the
returned status (`None` for an unknown invoice or currency), and whether a
per-currency provider balance check was invoked on the way. -/
structure CheckResult where
  store : Store
  status : Option String
  providerCalled : Bool

/-- `check_transaction_status` (lines 167-195).  The outcome of the
dispatched `_check_*` provider call enters as the oracle `bal`; the
`providerCalled` flag records whether that dispatch was reached. -/
def check_transaction_status (store : Store) (invoice_id : String) (bal : ℚ) :
    CheckResult :=
  match store invoice_id with
  | none => ⟨store, none, false⟩
  | some invoice =>
    if invoice.paid then ⟨store, some "paid", false⟩
    else if supported invoice.currency then
      if bal ≥ invoice.amount then
        ⟨Store.set store invoice_id { invoice with paid := true }, some "paid", true⟩
      else ⟨store, some "pending", true⟩
    else ⟨store, none, false⟩

/-- Result of `forward_funds`: the (possibly updated) store, the returned
bool (`false` when an exception propagates instead of a return), whether a
provider exception propagated out of the call, whether any provider
sweep/transfer machinery was invoked, and whether a sweep transaction was
actually broadcast and accepted by the network. -/
structure ForwardResult where
  store : Store
  success : Bool
  raised : Bool
  sweepInvoked : Bool
  transferred : Bool

/-- Outcome of the one RPC that broadcasts the sweep transaction: it may
return normally, raise after the node already accepted the transaction, or
raise with the transaction dropped. -/
inductive BroadcastOutcome where
  | ok
  | raisedAccepted
  | raisedDropped
  deriving DecidableEq, Repr

/-- Oracle fixing the behaviour of every fallible provider interaction of
one `forward_funds` call: `preError` — an exception in the provider calls
made before any broadcast is attempted (nonce/gas/balance reads, the XRP
balance lookup, the pre-broadcast UTXO RPCs); `hasFunds` — for BTC/LTC,
whether `_sweep_utxos` finds UTXOs and finalizes the PSBT (otherwise it
returns `None` without broadcasting anything); `broadcast` — outcome of the
broadcast RPC itself; `reliableError` — for XRP, whether
`send_reliable_submission` (a second network call made after the
submission, line 256) raises. -/
structure SweepOracle where
  preError : Bool
  hasFunds : Bool
  broadcast : BroadcastOutcome
  reliableError : Bool
  deriving DecidableEq, Repr

/-- ETH branch (lines 210-224) and SOL branch (lines 226-236): read RPCs,
local signing, then one broadcast RPC; execution falls through to the
`invoice["forwarded"] = True` mark of line 261 only when nothing raised,
and any raised exception propagates with the store unchanged. -/
def sweepAccount (store : Store) (invoice_id : String) (invoice : Invoice)
    (o : SweepOracle) : ForwardResult :=
  if o.preError then ⟨store, false, true, true, false⟩
  else
    match o.broadcast with
    | BroadcastOutcome.ok =>
      ⟨Store.set store invoice_id { invoice with forwarded := true },
       true, false, true, true⟩
    | BroadcastOutcome.raisedAccepted => ⟨store, false, true, true, true⟩
    | BroadcastOutcome.raisedDropped => ⟨store, false, true, true, false⟩

/-- BTC/LTC branches (lines 238-246) around `_sweep_utxos` (lines 56-74):
the pre-broadcast RPCs may raise; with no UTXOs or an incomplete PSBT the
helper returns `None` and the branch returns `False` without broadcasting
or marking; otherwise `sendrawtransaction` is the broadcast RPC. -/
def sweepUtxo (store : Store) (invoice_id : String) (invoice : Invoice)
    (o : SweepOracle) : ForwardResult :=
  if o.preError then ⟨store, false, true, true, false⟩
  else if o.hasFunds = false then ⟨store, false, false, true, false⟩
  else
    match o.broadcast with
    | BroadcastOutcome.ok =>
      ⟨Store.set store invoice_id { invoice with forwarded := true },
       true, false, true, true⟩
    | BroadcastOutcome.raisedAccepted => ⟨store, false, true, true, true⟩
    | BroadcastOutcome.raisedDropped => ⟨store, false, true, true, false⟩

/-- XRP branch (lines 248-256): the `_check_xrp` balance lookup, the signed
submission, then `send_reliable_submission` — a second network call made
after the broadcast and before the line-261 mark; when it raises, the
payment is already out but `forwarded` is never set. -/
def sweepXrp (store : Store) (invoice_id : String) (invoice : Invoice)
    (o : SweepOracle) : ForwardResult :=
  if o.preError then ⟨store, false, true, true, false⟩
  else
    match o.broadcast with
    | BroadcastOutcome.ok =>
      if o.reliableError then ⟨store, false, true, true, true⟩
      else
        ⟨Store.set store invoice_id { invoice with forwarded := true },
         true, false, true, true⟩
    | BroadcastOutcome.raisedAccepted => ⟨store, false, true, true, true⟩
    | BroadcastOutcome.raisedDropped => ⟨store, false, true, true, false⟩

/-- `forward_funds` (lines 200-262).  The guard of line 202 returns `False`
for a missing, unpaid or already-forwarded invoice before touching any
provider; otherwise the per-currency branch runs with its provider
behaviour fixed by the `SweepOracle`, and only a branch that completes
without raising reaches `invoice["forwarded"] = True` (line 261). -/
def forward_funds (store : Store) (invoice_id : String) (o : SweepOracle) :
    ForwardResult :=
  match store invoice_id with
  | none => ⟨store, false, false, false, false⟩
  | some invoice =>
    if invoice.paid = false || invoice.forwarded then
      ⟨store, false, false, false, false⟩
    else if invoice.currency = "ETH" then sweepAccount store invoice_id invoice o
    else if invoice.currency = "SOL" then sweepAccount store invoice_id invoice o
    else if invoice.currency = "BTC" then sweepUtxo store invoice_id invoice o
    else if invoice.currency = "LTC" then sweepUtxo store invoice_id invoice o
    else if invoice.currency = "XRP" then sweepXrp store invoice_id invoice o
    else ⟨store, false, false, false, false⟩

/-- One public mutating call on the store: a `check_transaction_status` (with
the provider-reported balance as oracle) or a `forward_funds` (with the
sweep outcome as oracle), on any invoice id. -/
inductive Op where
  | check (invoice_id : String) (bal : ℚ)
  | forward (invoice_id : String) (o : SweepOracle)

/-- Effect of one call on the store. -/
def step (store : Store) : Op → Store
  | Op.check invoice_id bal => (check_transaction_status store invoice_id bal).store
  | Op.forward invoice_id t => (forward_funds store invoice_id t).store

/-- Effect of a sequence of calls on the store. -/
def run (store : Store) (ops : List Op) : Store :=
  ops.foldl step store

/-- A pending 10-unit ETH invoice used for concrete instantiations. -/
def invPending : Invoice :=
  { amount := 10, currency := "ETH", address := "0xA", privateKey := "sk",
    paid := false, forwarded := false }

/-- The same invoice once paid. -/
def invPaid : Invoice := { invPending with paid := true }

/-- The same invoice once paid and forwarded. -/
def invForwarded : Invoice := { invPending with paid := true, forwarded := true }

/-- A store holding only the pending invoice. -/
def storePending : Store := Store.set Store.empty "ETH_ab12cd34" invPending

/-- A store holding only the paid invoice. -/
def storePaid : Store := Store.set Store.empty "ETH_ab12cd34" invPaid

/-- A store holding only the paid-and-forwarded invoice. -/
def storeForwarded : Store := Store.set Store.empty "ETH_ab12cd34" invForwarded

/-- A paid, not yet forwarded XRP invoice. -/
def invXrpPaid : Invoice :=
  { amount := 10, currency := "XRP", address := "rAddr1", privateKey := "seed1",
    paid := true, forwarded := false }

/-- A store holding only the paid XRP invoice. -/
def storeXrpPaid : Store := Store.set Store.empty "XRP_ab12cd34" invXrpPaid

theorem Store.set_same (store : Store) (invoice_id : String) (inv : Invoice) :
    Store.set store invoice_id inv invoice_id = some inv := by
  simp [Store.set]

theorem Store.set_other (store : Store) (invoice_id k : String) (inv : Invoice)
    (h : k ≠ invoice_id) : Store.set store invoice_id inv k = store k := by
  simp [Store.set, h]

/-- `check_transaction_status` either leaves the store unchanged or flips
`paid` from `false` to `true` on the looked-up invoice. -/
theorem check_store_shape (store : Store) (invoice_id : String) (bal : ℚ) :
    (check_transaction_status store invoice_id bal).store = store ∨
    ∃ invoice, store invoice_id = some invoice ∧ invoice.paid = false ∧
      (check_transaction_status store invoice_id bal).store =
        Store.set store invoice_id { invoice with paid := true } := by
  cases h : store invoice_id with
  | none => left; simp [check_transaction_status, h]
  | some invoice =>
    cases hp : invoice.paid with
    | true => left; simp [check_transaction_status, h, hp]
    | false =>
      cases hs : supported invoice.currency with
      | false => left; simp [check_transaction_status, h, hp, hs]
      | true =>
        by_cases hb : bal ≥ invoice.amount
        · right
          exact ⟨invoice, rfl, hp, by simp [check_transaction_status, h, hp, hs, hb]⟩
        · left; simp [check_transaction_status, h, hp, hs, hb]

/-- The ETH/SOL branch body either leaves the store unchanged with a `False`
return (and no accepted transfer unless an exception was raised), or
completes, broadcasting and flipping `forwarded` to `true`. -/
theorem sweepAccount_shape (store : Store) (invoice_id : String)
    (invoice : Invoice) (o : SweepOracle) :
    ((sweepAccount store invoice_id invoice o).store = store ∧
     (sweepAccount store invoice_id invoice o).success = false ∧
     ((sweepAccount store invoice_id invoice o).raised = false →
       (sweepAccount store invoice_id invoice o).transferred = false)) ∨
    sweepAccount store invoice_id invoice o =
      ⟨Store.set store invoice_id { invoice with forwarded := true },
       true, false, true, true⟩ := by
  by_cases hpre : o.preError = true
  · left; simp [sweepAccount, hpre]
  · cases hb : o.broadcast with
    | ok => right; simp [sweepAccount, hpre, hb]
    | raisedAccepted => left; simp [sweepAccount, hpre, hb]
    | raisedDropped => left; simp [sweepAccount, hpre, hb]

/-- Same shape for the BTC/LTC branch body. -/
theorem sweepUtxo_shape (store : Store) (invoice_id : String)
    (invoice : Invoice) (o : SweepOracle) :
    ((sweepUtxo store invoice_id invoice o).store = store ∧
     (sweepUtxo store invoice_id invoice o).success = false ∧
     ((sweepUtxo store invoice_id invoice o).raised = false →
       (sweepUtxo store invoice_id invoice o).transferred = false)) ∨
    sweepUtxo store invoice_id invoice o =
      ⟨Store.set store invoice_id { invoice with forwarded := true },
       true, false, true, true⟩ := by
  by_cases hpre : o.preError = true
  · left; simp [sweepUtxo, hpre]
  · by_cases hfun : o.hasFunds = false
    · left; simp [sweepUtxo, hpre, hfun]
    · cases hb : o.broadcast with
      | ok => right; simp [sweepUtxo, hpre, hfun, hb]
      | raisedAccepted => left; simp [sweepUtxo, hpre, hfun, hb]
      | raisedDropped => left; simp [sweepUtxo, hpre, hfun, hb]

/-- Same shape for the XRP branch body; the `reliableError` case leaves the
store unchanged even though the payment was broadcast. -/
theorem sweepXrp_shape (store : Store) (invoice_id : String)
    (invoice : Invoice) (o : SweepOracle) :
    ((sweepXrp store invoice_id invoice o).store = store ∧
     (sweepXrp store invoice_id invoice o).success = false ∧
     ((sweepXrp store invoice_id invoice o).raised = false →
       (sweepXrp store invoice_id invoice o).transferred = false)) ∨
    sweepXrp store invoice_id invoice o =
      ⟨Store.set store invoice_id { invoice with forwarded := true },
       true, false, true, true⟩ := by
  by_cases hpre : o.preError = true
  · left; simp [sweepXrp, hpre]
  · cases hb : o.broadcast with
    | ok =>
      by_cases hrel : o.reliableError = true
      · left; simp [sweepXrp, hpre, hb, hrel]
      · right; simp [sweepXrp, hpre, hb, hrel]
    | raisedAccepted => left; simp [sweepXrp, hpre, hb]
    | raisedDropped => left; simp [sweepXrp, hpre, hb]

/-- `forward_funds` either leaves the store unchanged, returning `False` and
— unless an exception was raised — performing no accepted transfer, or
finds a paid, unforwarded invoice, completes the sweep and flips
`forwarded` to `true`. -/
theorem forward_shape (store : Store) (invoice_id : String) (o : SweepOracle) :
    ((forward_funds store invoice_id o).store = store ∧
     (forward_funds store invoice_id o).success = false ∧
     ((forward_funds store invoice_id o).raised = false →
       (forward_funds store invoice_id o).transferred = false)) ∨
    ∃ invoice, store invoice_id = some invoice ∧ invoice.paid = true ∧
      invoice.forwarded = false ∧
      forward_funds store invoice_id o =
        ⟨Store.set store invoice_id { invoice with forwarded := true },
         true, false, true, true⟩ := by
  cases h : store invoice_id with
  | none => left; simp [forward_funds, h]
  | some invoice =>
    cases hp : invoice.paid with
    | false => left; simp [forward_funds, h, hp]
    | true =>
      cases hf : invoice.forwarded with
      | true => left; simp [forward_funds, h, hp, hf]
      | false =>
        by_cases h1 : invoice.currency = "ETH"
        · have he : forward_funds store invoice_id o =
              sweepAccount store invoice_id invoice o := by
            simp [forward_funds, h, hp, hf, h1]
          rw [he]
          rcases sweepAccount_shape store invoice_id invoice o with hsh | hsh
          · exact Or.inl hsh
          · exact Or.inr ⟨invoice, rfl, hp, hf, hsh⟩
        by_cases h2 : invoice.currency = "SOL"
        · have he : forward_funds store invoice_id o =
              sweepAccount store invoice_id invoice o := by
            simp [forward_funds, h, hp, hf, h1, h2]
          rw [he]
          rcases sweepAccount_shape store invoice_id invoice o with hsh | hsh
          · exact Or.inl hsh
          · exact Or.inr ⟨invoice, rfl, hp, hf, hsh⟩
        by_cases h3 : invoice.currency = "BTC"
        · have he : forward_funds store invoice_id o =
              sweepUtxo store invoice_id invoice o := by
            simp [forward_funds, h, hp, hf, h1, h2, h3]
          rw [he]
          rcases sweepUtxo_shape store invoice_id invoice o with hsh | hsh
          · exact Or.inl hsh
          · exact Or.inr ⟨invoice, rfl, hp, hf, hsh⟩
        by_cases h4 : invoice.currency = "LTC"
        · have he : forward_funds store invoice_id o =
              sweepUtxo store invoice_id invoice o := by
            simp [forward_funds, h, hp, hf, h1, h2, h3, h4]
          rw [he]
          rcases sweepUtxo_shape store invoice_id invoice o with hsh | hsh
          · exact Or.inl hsh
          · exact Or.inr ⟨invoice, rfl, hp, hf, hsh⟩
        by_cases h5 : invoice.currency = "XRP"
        · have he : forward_funds store invoice_id o =
              sweepXrp store invoice_id invoice o := by
            simp [forward_funds, h, hp, hf, h1, h2, h3, h4, h5]
          rw [he]
          rcases sweepXrp_shape store invoice_id invoice o with hsh | hsh
          · exact Or.inl hsh
          · exact Or.inr ⟨invoice, rfl, hp, hf, hsh⟩
        · left; simp [forward_funds, h, hp, hf, h1, h2, h3, h4, h5]

/-- The guard of line 202: a missing invoice yields `False` untouched. -/
theorem forward_none (store : Store) (invoice_id : String) (o : SweepOracle)
    (h : store invoice_id = none) :
    forward_funds store invoice_id o = ⟨store, false, false, false, false⟩ := by
  simp [forward_funds, h]

/-- The guard of line 202: an unpaid or already-forwarded invoice yields
`False` without touching any provider or the store. -/
theorem forward_noop (store : Store) (invoice_id : String) (inv : Invoice)
    (o : SweepOracle) (hfind : store invoice_id = some inv)
    (h : inv.paid = false ∨ inv.forwarded = true) :
    forward_funds store invoice_id o = ⟨store, false, false, false, false⟩ := by
  rcases h with h | h <;> simp [forward_funds, hfind, h]

/-- One step preserves `paid = true` of any invoice, and does not touch an
invoice that is both paid and forwarded. -/
theorem step_preserves_paid (store : Store) (op : Op) (invoice_id : String)
    (inv : Invoice) (hfind : store invoice_id = some inv) (hpaid : inv.paid = true) :
    ∃ inv', step store op invoice_id = some inv' ∧ inv'.paid = true ∧
      (inv.forwarded = true → inv' = inv) := by
  cases op with
  | check id' bal =>
    rcases check_store_shape store id' bal with h | ⟨invoice, hl, hp, h⟩
    · exact ⟨inv, by simp only [step]; rw [h, hfind], hpaid, fun _ => rfl⟩
    · by_cases he : invoice_id = id'
      · subst he
        rw [hfind] at hl
        injection hl with hl
        rw [hl] at hpaid
        rw [hpaid] at hp
        exact absurd hp (by simp)
      · refine ⟨inv, ?_, hpaid, fun _ => rfl⟩
        simp only [step]
        rw [h, Store.set_other _ _ _ _ he, hfind]
  | forward id' t =>
    rcases forward_shape store id' t with ⟨h, _, _⟩ | ⟨invoice, hl, hp, hf, h⟩
    · exact ⟨inv, by simp only [step]; rw [h, hfind], hpaid, fun _ => rfl⟩
    · by_cases he : invoice_id = id'
      · subst he
        rw [hfind] at hl
        injection hl with hl
        subst hl
        refine ⟨{ inv with forwarded := true }, ?_, hpaid, fun hforw => ?_⟩
        · simp only [step, h]
          exact Store.set_same _ _ _
        · rw [hforw] at hf
          exact absurd hf (by simp)
      · refine ⟨inv, ?_, hpaid, fun _ => rfl⟩
        simp only [step, h]
        rw [Store.set_other _ _ _ _ he, hfind]

end CryptoPayment

namespace CryptoPayment

/-- C1 (amended): `create_invoice` performs no validation of `amount`; for
any `amount ≤ 0` and any supported currency it still persists the invoice
with that amount and returns the id and address, exactly as for a positive
amount.  No `InvalidAmount` error path exists in the code. -/
theorem create_invoice_accepts_nonpositive_amount (store : Store) (amount : ℚ)
    (currency suffix : String) (data : AddrData) (_hamt : amount ≤ 0)
    (hs : supported (strUpper currency) = true) :
    create_invoice store amount currency suffix data =
      (Store.set store (generate_id (strUpper currency) suffix)
        { amount := amount, currency := strUpper currency, address := data.address,
          privateKey := data.privateKey, paid := false, forwarded := false },
       Except.ok (generate_id (strUpper currency) suffix, data.address)) := by
  simp [create_invoice, create_invoice_upper, hs]

/-- C1 (counterexample): `create_invoice` with `amount = 0` does not fail; it
returns an id and address and persists a zero-amount invoice. -/
theorem create_invoice_nonpositive_amount_cex :
    (create_invoice Store.empty 0 "ETH" "ab12cd34" ⟨"sk", "0xA"⟩).2 =
      Except.ok ("ETH_ab12cd34", "0xA") ∧
    (create_invoice Store.empty 0 "ETH" "ab12cd34" ⟨"sk", "0xA"⟩).1 "ETH_ab12cd34" =
      some { amount := 0, currency := "ETH", address := "0xA", privateKey := "sk",
             paid := false, forwarded := false } := by
  exact ⟨rfl, by decide⟩

/-- C1 (witness): concrete instance of the amended claim at `amount = -3`. -/
theorem create_invoice_accepts_nonpositive_amount_witness :
    create_invoice Store.empty (-3) "eth" "zz11yy22" ⟨"sk", "0xB"⟩ =
      (Store.set Store.empty (generate_id (strUpper "eth") "zz11yy22")
        { amount := -3, currency := strUpper "eth", address := "0xB",
          privateKey := "sk", paid := false, forwarded := false },
       Except.ok (generate_id (strUpper "eth") "zz11yy22", "0xB")) :=
  create_invoice_accepts_nonpositive_amount Store.empty (-3) "eth" "zz11yy22"
    ⟨"sk", "0xB"⟩ (by norm_num) (by decide)

/-- C2 (amended): the BTC/LTC checkers propagate RPC errors as exceptions,
but `_check_xrp` returns `0.0` for any unsuccessful response or missing
account data, and `_check_sol` returns `0` for any response without a
`result` — an error reply is silently reported as a zero balance rather
than failing with a `ProviderUnavailable`-style error. -/
theorem balance_checks_error_handling (xr : XrpResponse) (sr : SolResponse)
    (br : RpcResponse) (e : String) :
    (xr.successful = false → check_xrp xr = 0) ∧
    (xr.account_data = none → check_xrp xr = 0) ∧
    (sr.result = none → check_sol sr = 0) ∧
    (br.httpError = true → check_btc br = Except.error RpcError.HttpError) ∧
    (br.httpError = false → br.error = some e →
      check_btc br = Except.error (RpcError.RpcErrorField e)) ∧
    (br.httpError = false → br.error = none → check_ltc br = Except.ok br.result) := by
  refine ⟨fun h => ?_, fun h => ?_, fun h => ?_, fun h => ?_,
    fun h1 h2 => ?_, fun h1 h2 => ?_⟩
  · rcases xr with ⟨s, ad⟩
    subst h
    cases ad <;> rfl
  · rcases xr with ⟨s, ad⟩
    subst h
    cases s <;> rfl
  · rcases sr with ⟨r⟩
    subst h
    simp [check_sol]
  · simp [check_btc, rpc_call, h]
  · simp [check_btc, rpc_call, h1, h2]
  · simp [check_ltc, rpc_call, h1, h2]

/-- C2 (counterexample): an unsuccessful XRP response and a Solana error
reply without a `result` both yield `0`, which is exactly the value of a
confirmed zero balance — the caller cannot distinguish the two. -/
theorem silent_zero_on_error_cex :
    check_xrp ⟨false, none⟩ = 0 ∧
    check_xrp ⟨true, some ⟨some 0⟩⟩ = 0 ∧
    check_sol ⟨none⟩ = 0 ∧
    check_sol ⟨some ⟨some 0⟩⟩ = 0 := by
  refine ⟨rfl, ?_, ?_, ?_⟩
  · norm_num [check_xrp]
  · norm_num [check_sol]
  · norm_num [check_sol]

/-- C2 (witness): concrete instances of the amended claim. -/
theorem balance_checks_error_handling_witness :
    check_xrp ⟨false, some ⟨some 5⟩⟩ = 0 ∧
    check_sol ⟨none⟩ = 0 ∧
    check_btc ⟨false, some "timeout", 3⟩ =
      Except.error (RpcError.RpcErrorField "timeout") := by
  obtain ⟨h1, _, h3, _, h5, _⟩ := balance_checks_error_handling ⟨false, some ⟨some 5⟩⟩
    ⟨none⟩ ⟨false, some "timeout", 3⟩ "timeout"
  exact ⟨h1 rfl, h3 rfl, h5 rfl rfl⟩

/-- C3: status transitions are monotonic.  Once an invoice's `paid` flag is
set, no sequence of `check_transaction_status` / `forward_funds` calls (on
any invoice ids, with any provider outcomes) resets it; and once the invoice
is also `forwarded`, no such sequence changes its record at all. -/
theorem status_monotonic (ops : List Op) :
    ∀ (store : Store) (invoice_id : String) (inv : Invoice),
      store invoice_id = some inv → inv.paid = true →
      ∃ inv', run store ops invoice_id = some inv' ∧ inv'.paid = true ∧
        (inv.forwarded = true → inv' = inv) := by
  induction ops with
  | nil => exact fun store invoice_id inv h hp => ⟨inv, h, hp, fun _ => rfl⟩
  | cons op ops ih =>
    intro store invoice_id inv h hp
    obtain ⟨inv1, h1, hp1, hf1⟩ := step_preserves_paid store op invoice_id inv h hp
    obtain ⟨inv2, h2, hp2, hf2⟩ := ih (step store op) invoice_id inv1 h1 hp1
    refine ⟨inv2, h2, hp2, fun hforw => ?_⟩
    have e1 := hf1 hforw
    have e2 := hf2 (by rw [e1]; exact hforw)
    rw [e2, e1]

/-- C3 (witness): a paid-and-forwarded invoice survives a concrete sequence
of checks and forwards unchanged. -/
theorem status_monotonic_witness :
    ∃ inv', run storeForwarded
        [Op.check "ETH_ab12cd34" 0,
         Op.forward "ETH_ab12cd34" ⟨false, false, BroadcastOutcome.ok, false⟩,
         Op.check "BTC_zz" 99,
         Op.forward "BTC_zz" ⟨false, true, BroadcastOutcome.raisedAccepted, false⟩]
        "ETH_ab12cd34" = some inv' ∧
      inv'.paid = true ∧ (invForwarded.forwarded = true → inv' = invForwarded) :=
  status_monotonic _ storeForwarded "ETH_ab12cd34" invForwarded (by decide) (by decide)

/-- C4: a balance check on a pending invoice of a supported currency marks it
paid exactly when the observed balance reaches the target amount: `bal ≥
amount` returns `"paid"` and sets the flag (overpayment included), while
`bal < amount` returns `"pending"` and leaves the store unchanged. -/
theorem check_paid_iff_balance_reaches_target (store : Store) (invoice_id : String)
    (inv : Invoice) (bal : ℚ) (hfind : store invoice_id = some inv)
    (hp : inv.paid = false) (hs : supported inv.currency = true) :
    (bal ≥ inv.amount →
      check_transaction_status store invoice_id bal =
        ⟨Store.set store invoice_id { inv with paid := true }, some "paid", true⟩) ∧
    (bal < inv.amount →
      check_transaction_status store invoice_id bal = ⟨store, some "pending", true⟩) := by
  constructor
  · intro hb
    simp [check_transaction_status, hfind, hp, hs, hb]
  · intro hb
    simp [check_transaction_status, hfind, hp, hs, not_le.mpr hb]

/-- C4 (witness): a target of `10.0` with an observed balance of `12.5`
transitions to paid (overpayment accepted), while `9.5` stays pending. -/
theorem check_paid_iff_balance_reaches_target_witness :
    check_transaction_status storePending "ETH_ab12cd34" (12.5 : ℚ) =
      ⟨Store.set storePending "ETH_ab12cd34" { invPending with paid := true },
       some "paid", true⟩ ∧
    check_transaction_status storePending "ETH_ab12cd34" (9.5 : ℚ) =
      ⟨storePending, some "pending", true⟩ :=
  ⟨(check_paid_iff_balance_reaches_target storePending "ETH_ab12cd34" invPending 12.5
      (by decide) (by decide) (by decide)).1 (by norm_num [invPending]),
   (check_paid_iff_balance_reaches_target storePending "ETH_ab12cd34" invPending 9.5
      (by decide) (by decide) (by decide)).2 (by norm_num [invPending])⟩

/-- C5 (amended): the guard clause holds unconditionally — any call on a
missing, unpaid or already-forwarded invoice returns `False` without
invoking any provider sweep and without changing the store — and two
sequential `forward_funds` calls broadcast at most one transfer provided
the first call returns normally (no provider exception propagates); when an
exception is raised between the broadcast and the `forwarded` mark, the
invoice stays unforwarded and the second call sweeps again. -/
theorem forward_funds_idempotent (store : Store) (invoice_id : String)
    (o1 o2 : SweepOracle) :
    ((forward_funds store invoice_id o1).raised = false →
      ¬ ((forward_funds store invoice_id o1).transferred = true ∧
         (forward_funds (forward_funds store invoice_id o1).store invoice_id
           o2).transferred = true)) ∧
    (∀ inv, store invoice_id = some inv →
      inv.paid = false ∨ inv.forwarded = true →
      forward_funds store invoice_id o1 = ⟨store, false, false, false, false⟩) ∧
    (store invoice_id = none →
      forward_funds store invoice_id o1 = ⟨store, false, false, false, false⟩) := by
  refine ⟨?_, fun inv hfind h => forward_noop store invoice_id inv o1 hfind h,
    fun h => forward_none store invoice_id o1 h⟩
  intro hraised
  rintro ⟨htr1, htr2⟩
  rcases forward_shape store invoice_id o1 with ⟨_, _, htr⟩ | ⟨invoice, hl, hp, hf, h⟩
  · rw [htr hraised] at htr1
    exact absurd htr1 (by simp)
  · simp only [h] at htr2
    have hnoop := forward_noop
      (Store.set store invoice_id { invoice with forwarded := true }) invoice_id
      { invoice with forwarded := true } o2 (Store.set_same _ _ _) (Or.inr rfl)
    rw [hnoop] at htr2
    exact absurd htr2 (by simp)

/-- C5 (counterexample): a paid XRP invoice, a first call whose submission
broadcasts the payment but whose `send_reliable_submission` then raises —
the transfer is out, `forwarded` is never set and the store is unchanged —
and a second sequential call that broadcasts a second transfer. -/
theorem forward_double_sweep_cex :
    (forward_funds storeXrpPaid "XRP_ab12cd34"
        ⟨false, false, BroadcastOutcome.ok, true⟩).transferred = true ∧
    (forward_funds storeXrpPaid "XRP_ab12cd34"
        ⟨false, false, BroadcastOutcome.ok, true⟩).raised = true ∧
    (forward_funds storeXrpPaid "XRP_ab12cd34"
        ⟨false, false, BroadcastOutcome.ok, true⟩).store "XRP_ab12cd34" =
      some invXrpPaid ∧
    (forward_funds
        (forward_funds storeXrpPaid "XRP_ab12cd34"
          ⟨false, false, BroadcastOutcome.ok, true⟩).store
        "XRP_ab12cd34" ⟨false, false, BroadcastOutcome.ok, false⟩).transferred =
      true := by
  refine ⟨?_, ?_, ?_, ?_⟩ <;> decide

/-- C5 (witness): concrete instances of the amended claim — a paid ETH
invoice whose first call returns normally is swept at most once across two
sequential calls, and calls on a pending, forwarded or missing invoice are
no-ops returning `False`. -/
theorem forward_funds_idempotent_witness :
    (¬ ((forward_funds storePaid "ETH_ab12cd34"
          ⟨false, false, BroadcastOutcome.ok, false⟩).transferred = true ∧
        (forward_funds
          (forward_funds storePaid "ETH_ab12cd34"
            ⟨false, false, BroadcastOutcome.ok, false⟩).store
          "ETH_ab12cd34"
          ⟨false, false, BroadcastOutcome.ok, false⟩).transferred = true)) ∧
    forward_funds storePending "ETH_ab12cd34"
        ⟨false, false, BroadcastOutcome.ok, false⟩ =
      ⟨storePending, false, false, false, false⟩ ∧
    forward_funds storeForwarded "ETH_ab12cd34"
        ⟨false, false, BroadcastOutcome.ok, false⟩ =
      ⟨storeForwarded, false, false, false, false⟩ ∧
    forward_funds Store.empty "missing" ⟨false, false, BroadcastOutcome.ok, false⟩ =
      ⟨Store.empty, false, false, false, false⟩ :=
  ⟨(forward_funds_idempotent storePaid "ETH_ab12cd34"
      ⟨false, false, BroadcastOutcome.ok, false⟩
      ⟨false, false, BroadcastOutcome.ok, false⟩).1 (by decide),
   (forward_funds_idempotent storePending "ETH_ab12cd34"
      ⟨false, false, BroadcastOutcome.ok, false⟩
      ⟨false, false, BroadcastOutcome.ok, false⟩).2.1 invPending
     (by decide) (Or.inl (by decide)),
   (forward_funds_idempotent storeForwarded "ETH_ab12cd34"
      ⟨false, false, BroadcastOutcome.ok, false⟩
      ⟨false, false, BroadcastOutcome.ok, false⟩).2.1 invForwarded
     (by decide) (Or.inr (by decide)),
   (forward_funds_idempotent Store.empty "missing"
      ⟨false, false, BroadcastOutcome.ok, false⟩
      ⟨false, false, BroadcastOutcome.ok, false⟩).2.2 (by decide)⟩

/-- C6: for an invoice whose `paid` flag is already set,
`check_transaction_status` returns `"paid"` with no provider balance call
and leaves the store unchanged, whatever the provider would have reported. -/
theorem check_paid_fast_path (store : Store) (invoice_id : String) (inv : Invoice)
    (bal : ℚ) (hfind : store invoice_id = some inv) (hp : inv.paid = true) :
    check_transaction_status store invoice_id bal = ⟨store, some "paid", false⟩ := by
  simp [check_transaction_status, hfind, hp]

/-- C6 (witness): concrete instance on the paid invoice, with a provider
balance of `0` that is never consulted. -/
theorem check_paid_fast_path_witness :
    check_transaction_status storePaid "ETH_ab12cd34" 0 =
      ⟨storePaid, some "paid", false⟩ :=
  check_paid_fast_path storePaid "ETH_ab12cd34" invPaid 0 (by decide) (by decide)

/-- C7: for any currency outside the supported set (after uppercasing),
`create_invoice` raises `Unsupported currency` and the store is unchanged
(the insertion of line 124 is never reached). -/
theorem create_invoice_unsupported_currency (store : Store) (amount : ℚ)
    (currency suffix : String) (data : AddrData)
    (h : supported (strUpper currency) = false) :
    create_invoice store amount currency suffix data =
      (store, Except.error CreateError.UnsupportedCurrency) := by
  simp [create_invoice, create_invoice_upper, h]

/-- C7 (witness): `"doge"` is rejected and the (empty) store is unchanged. -/
theorem create_invoice_unsupported_currency_witness :
    create_invoice Store.empty 1 "doge" "ab12cd34" ⟨"sk", "0xA"⟩ =
      (Store.empty, Except.error CreateError.UnsupportedCurrency) :=
  create_invoice_unsupported_currency Store.empty 1 "doge" "ab12cd34" ⟨"sk", "0xA"⟩
    (by decide)

/-- C8 (amended): `create_invoice` performs no duplicate-id check; when the
freshly generated id is already present in the store, the existing record is
silently overwritten by the new invoice and the call still succeeds.  No
`DuplicateId` error path exists in the code. -/
theorem create_invoice_silently_overwrites (store : Store) (invOld : Invoice)
    (amount : ℚ) (currency suffix : String) (data : AddrData)
    (_hdup : store (generate_id (strUpper currency) suffix) = some invOld)
    (hs : supported (strUpper currency) = true) :
    (create_invoice store amount currency suffix data).1
        (generate_id (strUpper currency) suffix) =
      some { amount := amount, currency := strUpper currency,
             address := data.address, privateKey := data.privateKey,
             paid := false, forwarded := false } ∧
    (create_invoice store amount currency suffix data).2 =
      Except.ok (generate_id (strUpper currency) suffix, data.address) := by
  constructor
  · simp [create_invoice, create_invoice_upper, hs, Store.set_same]
  · simp [create_invoice, create_invoice_upper, hs]

/-- C8 (counterexample): with an invoice already stored under
`"ETH_ab12cd34"`, `create_invoice` generating that same id succeeds and
replaces the old record with a different one instead of failing with a
duplicate-id error. -/
theorem duplicate_id_overwrite_cex :
    (Store.set Store.empty "ETH_ab12cd34"
        ⟨5, "ETH", "0xold", "skold", true, false⟩) "ETH_ab12cd34" =
      some ⟨5, "ETH", "0xold", "skold", true, false⟩ ∧
    (create_invoice
        (Store.set Store.empty "ETH_ab12cd34" ⟨5, "ETH", "0xold", "skold", true, false⟩)
        7 "ETH" "ab12cd34" ⟨"sknew", "0xnew"⟩).2 =
      Except.ok ("ETH_ab12cd34", "0xnew") ∧
    (create_invoice
        (Store.set Store.empty "ETH_ab12cd34" ⟨5, "ETH", "0xold", "skold", true, false⟩)
        7 "ETH" "ab12cd34" ⟨"sknew", "0xnew"⟩).1 "ETH_ab12cd34" =
      some ⟨7, "ETH", "0xnew", "sknew", false, false⟩ ∧
    (⟨7, "ETH", "0xnew", "sknew", false, false⟩ : Invoice) ≠
      ⟨5, "ETH", "0xold", "skold", true, false⟩ := by
  exact ⟨by decide, rfl, by decide, by decide⟩

/-- C8 (witness): concrete instance of the amended claim — the overwrite
happens on a store already holding the colliding id. -/
theorem create_invoice_silently_overwrites_witness :
    (create_invoice storePending 7 "eth" "ab12cd34" ⟨"sknew", "0xnew"⟩).1
        (generate_id (strUpper "eth") "ab12cd34") =
      some { amount := 7, currency := strUpper "eth", address := "0xnew",
             privateKey := "sknew", paid := false, forwarded := false } ∧
    (create_invoice storePending 7 "eth" "ab12cd34" ⟨"sknew", "0xnew"⟩).2 =
      Except.ok (generate_id (strUpper "eth") "ab12cd34", "0xnew") :=
  create_invoice_silently_overwrites storePending invPending 7 "eth" "ab12cd34"
    ⟨"sknew", "0xnew"⟩ (by decide) (by decide)

/-- C9: the custody key is not surfaced through the public operations'
return values.  The caller-visible result of `create_invoice` is invariant
under changing the provider-issued private key (it consists only of the
invoice id and the address); the status returned by
`check_transaction_status` and the boolean returned by `forward_funds` are
invariant under changing the stored invoice's private key. -/
theorem custody_key_not_surfaced (store : Store) (amount : ℚ)
    (currency suffix : String) (d1 d2 : AddrData) (invoice_id : String)
    (inv : Invoice) (k : String) (bal : ℚ) (o : SweepOracle) :
    (d1.address = d2.address →
      (create_invoice store amount currency suffix d1).2 =
        (create_invoice store amount currency suffix d2).2) ∧
    (store invoice_id = some inv →
      (check_transaction_status
          (Store.set store invoice_id { inv with privateKey := k })
          invoice_id bal).status =
        (check_transaction_status store invoice_id bal).status) ∧
    (store invoice_id = some inv →
      (forward_funds (Store.set store invoice_id { inv with privateKey := k })
          invoice_id o).success =
        (forward_funds store invoice_id o).success) := by
  refine ⟨fun haddr => ?_, fun hfind => ?_, fun hfind => ?_⟩
  · by_cases hs : supported (strUpper currency) = true
    · simp [create_invoice, create_invoice_upper, hs, haddr]
    · simp [create_invoice, create_invoice_upper, hs]
  · cases hp : inv.paid with
    | true => simp [check_transaction_status, Store.set, hfind, hp]
    | false =>
      cases hs : supported inv.currency with
      | false => simp [check_transaction_status, Store.set, hfind, hp, hs]
      | true =>
        by_cases hb : bal ≥ inv.amount
        · simp [check_transaction_status, Store.set, hfind, hp, hs, hb]
        · simp [check_transaction_status, Store.set, hfind, hp, hs, hb]
  · obtain ⟨amt, cur, addr, pk, pd, fw⟩ := inv
    cases pd with
    | false => simp [forward_funds, Store.set, hfind]
    | true =>
      cases fw with
      | true => simp [forward_funds, Store.set, hfind]
      | false =>
        by_cases h1 : cur = "ETH"
        · by_cases hpre : o.preError = true
          · simp [forward_funds, Store.set, hfind, h1, sweepAccount, hpre]
          · cases hb : o.broadcast <;>
              simp [forward_funds, Store.set, hfind, h1, sweepAccount, hpre, hb]
        by_cases h2 : cur = "SOL"
        · by_cases hpre : o.preError = true
          · simp [forward_funds, Store.set, hfind, h1, h2, sweepAccount, hpre]
          · cases hb : o.broadcast <;>
              simp [forward_funds, Store.set, hfind, h1, h2, sweepAccount, hpre, hb]
        by_cases h3 : cur = "BTC"
        · by_cases hpre : o.preError = true
          · simp [forward_funds, Store.set, hfind, h1, h2, h3, sweepUtxo, hpre]
          · by_cases hfun : o.hasFunds = false
            · simp [forward_funds, Store.set, hfind, h1, h2, h3, sweepUtxo, hpre, hfun]
            · cases hb : o.broadcast <;>
                simp [forward_funds, Store.set, hfind, h1, h2, h3, sweepUtxo, hpre,
                  hfun, hb]
        by_cases h4 : cur = "LTC"
        · by_cases hpre : o.preError = true
          · simp [forward_funds, Store.set, hfind, h1, h2, h3, h4, sweepUtxo, hpre]
          · by_cases hfun : o.hasFunds = false
            · simp [forward_funds, Store.set, hfind, h1, h2, h3, h4, sweepUtxo, hpre,
                hfun]
            · cases hb : o.broadcast <;>
                simp [forward_funds, Store.set, hfind, h1, h2, h3, h4, sweepUtxo,
                  hpre, hfun, hb]
        by_cases h5 : cur = "XRP"
        · by_cases hpre : o.preError = true
          · simp [forward_funds, Store.set, hfind, h1, h2, h3, h4, h5, sweepXrp, hpre]
          · cases hb : o.broadcast with
            | ok =>
              by_cases hrel : o.reliableError = true <;>
                simp [forward_funds, Store.set, hfind, h1, h2, h3, h4, h5, sweepXrp,
                  hpre, hb, hrel]
            | raisedAccepted =>
              simp [forward_funds, Store.set, hfind, h1, h2, h3, h4, h5, sweepXrp,
                hpre, hb]
            | raisedDropped =>
              simp [forward_funds, Store.set, hfind, h1, h2, h3, h4, h5, sweepXrp,
                hpre, hb]
        · simp [forward_funds, Store.set, hfind, h1, h2, h3, h4, h5]

/-- C9 (witness): concrete instances — swapping the private key (in the
provider response or in the stored record) leaves every caller-visible
return value unchanged. -/
theorem custody_key_not_surfaced_witness :
    ((create_invoice storePending 5 "eth" "qq33ww44" ⟨"key1", "0xC"⟩).2 =
      (create_invoice storePending 5 "eth" "qq33ww44" ⟨"key2", "0xC"⟩).2) ∧
    ((check_transaction_status
        (Store.set storePending "ETH_ab12cd34"
          { invPending with privateKey := "other" }) "ETH_ab12cd34" 7).status =
      (check_transaction_status storePending "ETH_ab12cd34" 7).status) ∧
    ((forward_funds
        (Store.set storePending "ETH_ab12cd34"
          { invPending with privateKey := "other" }) "ETH_ab12cd34"
        ⟨false, false, BroadcastOutcome.ok, false⟩).success =
      (forward_funds storePending "ETH_ab12cd34"
        ⟨false, false, BroadcastOutcome.ok, false⟩).success) := by
  obtain ⟨h1, h2, h3⟩ := custody_key_not_surfaced storePending 5 "eth" "qq33ww44"
    ⟨"key1", "0xC"⟩ ⟨"key2", "0xC"⟩ "ETH_ab12cd34" invPending "other" 7
    ⟨false, false, BroadcastOutcome.ok, false⟩
  exact ⟨h1 rfl, h2 (by decide), h3 (by decide)⟩

/-- C10: `create_invoice` is case-insensitive in its currency argument — it
behaves exactly as its body applied to the uppercased currency, and for any
spelling whose uppercase form is supported it succeeds, storing the
uppercase form in the record and as the invoice-id prefix. -/
theorem create_invoice_case_insensitive (store : Store) (amount : ℚ)
    (currency suffix : String) (data : AddrData) :
    create_invoice store amount currency suffix data =
      create_invoice_upper store amount (strUpper currency) suffix data ∧
    (supported (strUpper currency) = true →
      create_invoice store amount currency suffix data =
        (Store.set store (strUpper currency ++ "_" ++ suffix)
          { amount := amount, currency := strUpper currency,
            address := data.address, privateKey := data.privateKey,
            paid := false, forwarded := false },
         Except.ok (strUpper currency ++ "_" ++ suffix, data.address))) := by
  refine ⟨rfl, fun hs => ?_⟩
  simp [create_invoice, create_invoice_upper, generate_id, hs]

/-- C10 (witness): the mixed-case spelling `"eTh"` is accepted, and the
stored record and id prefix carry `"ETH"`. -/
theorem create_invoice_case_insensitive_witness :
    create_invoice Store.empty 2 "eTh" "ab12cd34" ⟨"sk", "0xA"⟩ =
      (Store.set Store.empty (strUpper "eTh" ++ "_" ++ "ab12cd34")
        { amount := 2, currency := strUpper "eTh", address := "0xA",
          privateKey := "sk", paid := false, forwarded := false },
       Except.ok (strUpper "eTh" ++ "_" ++ "ab12cd34", "0xA")) :=
  (create_invoice_case_insensitive Store.empty 2 "eTh" "ab12cd34"
    ⟨"sk", "0xA"⟩).2 (by decide)

end CryptoPayment
